import Mathlib

/-!
Verification of the RedditClone user-account backend
(`src/server/src/resolvers/user.resolver.ts`).

The resolver methods (`user`, `login`, `logout`, `register`,
`forgotPassword`, `resetPassword`) are embedded as pure Lean functions.
External collaborators (the Prisma user store, the Redis token cache, the
express session, the argon2 hasher, the email sender) live outside the
repository; they are modelled from the spec's interface section, and every
asynchronous call the resolver makes to them is recorded in an explicit
effect trace so that claims about "no write / no hash / no lookup" are
directly statable.  Randomness (uuid `v4()`, argon2 salting) is modelled by
passing the generated token, respectively the hash function, as explicit
parameters.
-/

namespace RedditClone

/-- Equality of `Except` values is decidable componentwise (needed to
evaluate the embedding on concrete inputs). -/
instance {ε α : Type} [DecidableEq ε] [DecidableEq α] : DecidableEq (Except ε α)
  | .error e, .error f =>
      if h : e = f then .isTrue (h ▸ rfl)
      else .isFalse (fun hh => h (Except.error.inj hh))
  | .error _, .ok _ => .isFalse (fun hh => Except.noConfusion hh)
  | .ok _, .error _ => .isFalse (fun hh => Except.noConfusion hh)
  | .ok x, .ok y =>
      if h : x = y then .isTrue (h ▸ rfl)
      else .isFalse (fun hh => h (Except.ok.inj hh))

/-- The JavaScript `String.prototype.trim` used by the resolver (`.trim()`
calls): strip whitespace from both ends of the string. -/
def jsTrim (s : String) : String :=
  ⟨((s.data.dropWhile Char.isWhitespace).reverse.dropWhile Char.isWhitespace).reverse⟩

/-- Modelled from the spec: the User record of the data model (the
`models/user.model.ts` file is not part of the provided source) — unique
numeric id, unique username, unique email, hashed password. -/
structure User where
  id : Nat
  username : String
  email : String
  password : String
deriving Repr, DecidableEq

/-- FieldError from `models/error.model.ts` (not in the provided source):
a field name together with a human-readable message, the uniform shape for
validation failures. -/
structure FieldError where
  field : String
  message : String
deriving Repr, DecidableEq

/-- The `UserResponse` object type of `user.resolver.ts`: an optional list
of field errors and an optional user, both nullable. -/
structure UserResponse where
  errors : Option (List FieldError) := none
  user : Option User := none
deriving Repr, DecidableEq

/-- The `LoginInput` input type: a credential (username or email) and a
password. -/
structure LoginInput where
  credential : String
  password : String
deriving Repr, DecidableEq

/-- The `RegisterInput` input type: email, username and password. -/
structure RegisterInput where
  email : String
  username : String
  password : String
deriving Repr, DecidableEq

/-- Modelled from the spec: the Prisma-backed user store, a list of user
records plus the autoincrement counter supplying the next id. -/
structure DB where
  users : List User
  nextId : Nat
deriving Repr, DecidableEq

/-- Modelled from the spec: the session holder owned by the transport
layer; the core only reads and writes its user-id field. -/
structure Session where
  userId : Option Nat
deriving Repr, DecidableEq

/-- Modelled from the spec: the response object, on which the core only
clears the session cookie. -/
structure Res where
  cookieCleared : Bool
deriving Repr, DecidableEq

/-- Modelled from the spec: the Redis token cache, `set(key, value,
ttlSeconds)` / `get(key) -> value or absent`, with the backing store
enforcing expiry.  Each entry stores its key, its value and the absolute
time (in seconds) at which it expires. -/
structure TokenCache where
  entries : List (String × String × Nat)
deriving Repr, DecidableEq

/-- Modelled from the spec: `set(key, value, ttlSeconds)` at the current
time `now` stores the mapping with expiry `now + ttlSeconds`; overwriting
an existing key is permitted. -/
def TokenCache.set (c : TokenCache) (key value : String) (ttlSeconds now : Nat) :
    TokenCache :=
  ⟨(key, value, now + ttlSeconds) :: c.entries.filter (fun e => !(e.1 == key))⟩

/-- Modelled from the spec: `get(key)` at time `now` returns the stored
value, or absent once the TTL has elapsed or the key was never set. -/
def TokenCache.get (c : TokenCache) (key : String) (now : Nat) : Option String :=
  match c.entries.find? (fun e => e.1 == key) with
  | some (_, value, expiresAt) => if now < expiresAt then some value else none
  | none => none

/-- One collaborator call made by a resolver, recorded in order.  `hashOp`
is an argon2 hash computation, `createOp` a `prisma.user.create`,
`sessionSet` a write of `req.session.userId`, `cacheSet`/`cacheGet` the
Redis calls, `updateOp` a `prisma.user.update`, `emailSend` the
`sendResetPasswordEmail` call. -/
inductive Effect where
  | hashOp (password : String)
  | createOp
  | sessionSet (id : Nat)
  | cacheSet (key value : String) (ttlSeconds : Nat)
  | cacheGet (key : String)
  | updateOp (email : String)
  | emailSend (toAddr html : String)
deriving Repr, DecidableEq

/-- Modelled from the spec: `prisma.user.create` enforces the storage-level
uniqueness constraint on username and email; on violation it fails with a
store-level error, otherwise it appends the new record under the next
autoincrement id. -/
def DB.create (db : DB) (email username hashedPassword : String) :
    Except String (User × DB) :=
  if db.users.any (fun u => u.username == username || u.email == email) then
    .error "Unique constraint failed"
  else
    let user : User := ⟨db.nextId, username, email, hashedPassword⟩
    .ok (user, ⟨db.users ++ [user], db.nextId + 1⟩)

/-- Modelled from the spec: `prisma.user.update` keyed by email replaces
the password hash of the matching record and fails with a store-level
error when no record matches (account deleted in the meantime). -/
def DB.updateByEmail (db : DB) (email hashedPassword : String) :
    Except String (User × DB) :=
  match db.users.find? (fun u => u.email == email) with
  | none => .error "Record to update not found"
  | some u =>
      let u2 : User := ⟨u.id, u.username, u.email, hashedPassword⟩
      .ok (u2, ⟨db.users.map (fun v => if v.email == email then u2 else v), db.nextId⟩)

/-- Modelled from the spec: the constant `__FORGET_PASSWORD_PREFIX__`
imported from `constants.ts` (its definition is not in the provided
source): the single-namespace key prefix for reset tokens. -/
def forgetPasswordNamespace : String := "forget-password:"

/-- Modelled from the spec: `validateNewEmail(email, store)` fails with
field `email` if a record with that email already exists. -/
def validateNewEmail (email : String) (db : DB) : List FieldError :=
  if db.users.any (fun u => u.email == email) then
    [⟨"email", "A user with that email already exists"⟩]
  else []

/-- Modelled from the spec: `validateNewUsername(username, store)` fails
with field `username` if a record with that username already exists. -/
def validateNewUsername (username : String) (db : DB) : List FieldError :=
  if db.users.any (fun u => u.username == username) then
    [⟨"username", "A user with that username already exists"⟩]
  else []

/-- Modelled from the spec: `validatePasswordStrength(password)` fails with
field `password` if the password does not meet the minimum-length policy
(minimum 8 characters). -/
def validatePasswordStrength (password : String) : List FieldError :=
  if password.length < 8 then
    [⟨"password", "Password must be at least 8 characters"⟩]
  else []

/-- Modelled from the spec: `validateEmailExists(email, store)` fails with
field `email` if no record matches — used by forgotPassword, intentionally
revealing existence. -/
def validateEmailExists (email : String) (db : DB) : List FieldError :=
  if db.users.any (fun u => u.email == email) then []
  else [⟨"email", "Could not find a user with that email"⟩]

/-- Modelled from the spec: `validateNewPasswordsMatch(a, b)` fails with
field `newPasswordConfirm` if the two supplied values differ (exact string
equality post-trim, the trimming being done by the caller). -/
def validateNewPasswordsMatch (a b : String) : List FieldError :=
  if a == b then []
  else [⟨"newPasswordConfirm", "Passwords do not match"⟩]

/-- Modelled from the spec: `validateCorrectPassword(storedHash,
candidate)` fails with field `password` and a generic message if the
candidate does not verify against the stored hash; `verify` is the argon2
verification routine, passed explicitly. -/
def validateCorrectPassword (verify : String → String → Bool)
    (storedHash candidate : String) : List FieldError :=
  if verify storedHash candidate then []
  else [⟨"password", "Incorrect password"⟩]

/-- The `user` query: `prisma.user.findUnique(\x7b where: \x7b id \x7d \x7d)`,
returned directly with no authentication or session check (the function
does not even receive the session). -/
def userQuery (id : Nat) (db : DB) : Option User :=
  db.users.find? (fun u => u.id == id)

/-- The `login` mutation: find a user whose username or email equals the
credential; if absent return one error on `credential`; otherwise check
the password against the stored hash; on mismatch return those errors;
on success put the user id on the session and return the user. -/
def login (verify : String → String → Bool) (options : LoginInput)
    (db : DB) (sess : Session) : UserResponse × Session × List Effect :=
  let user? := db.users.find?
    (fun u => u.username == options.credential || u.email == options.credential)
  match user? with
  | none =>
      ({ errors := some [⟨"credential",
          "Could not find a user with the provided credential"⟩] }, sess, [])
  | some user =>
      let errors := validateCorrectPassword verify user.password options.password
      if errors.length > 0 then
        ({ errors := some errors }, sess, [])
      else
        ({ user := some user }, ⟨some user.id⟩, [.sessionSet user.id])

/-- The `logout` mutation: ask the session store to destroy the session;
on error resolve `false` (the cookie is left alone), otherwise clear the
session cookie and resolve `true`.  The outcome of the external destroy
call is the parameter `destroyOk`; the promise resolves in both branches,
so the embedding is a total function (nothing is thrown). -/
def logout (destroyOk : Bool) (res : Res) : Bool × Res :=
  if destroyOk then (true, ⟨true⟩) else (false, res)

/-- The `register` mutation: trim email, username and password; accumulate
the errors of `validateNewEmail`, `validateNewUsername` and
`validatePasswordStrength`; on any error return them and do nothing else;
otherwise hash the password, create the user (this call is NOT wrapped in
a try/catch, so a store failure propagates — modelled by the `Except`),
put the new id on the session and return the user.  The store is read at
two await points; `dbAtCheck` is its state when the validators run and
`dbAtCreate` its state when `prisma.user.create` runs (they differ only
under concurrent interference; sequential claims instantiate both with
the same store). -/
def register (hashFn : String → String) (options : RegisterInput)
    (dbAtCheck dbAtCreate : DB) (sess : Session) :
    Except String (UserResponse × DB × Session × List Effect) :=
  let email := jsTrim options.email
  let username := jsTrim options.username
  let password := jsTrim options.password
  let errors := validateNewEmail email dbAtCheck
    ++ validateNewUsername username dbAtCheck
    ++ validatePasswordStrength password
  if errors.length > 0 then
    .ok ({ errors := some errors }, dbAtCreate, sess, [])
  else
    let hashedPassword := hashFn password
    match dbAtCreate.create email username hashedPassword with
    | .error e => .error e
    | .ok (user, db2) =>
        .ok ({ user := some user }, db2, ⟨some user.id⟩,
          [.hashOp password, .createOp, .sessionSet user.id])

/-- The result of `forgotPassword`: the method is declared to return a
`UserResponse`, but on success the source returns the empty array `[]`
(a value that is not of the `UserResponse` shape), so the embedding keeps
the two outcomes apart. -/
inductive ForgotResult where
  | response (r : UserResponse)
  | emptyArray
deriving Repr, DecidableEq

/-- Whether a `ForgotResult` is a value of the declared `UserResponse`
response shape. -/
def ForgotResult.isUserResponse : ForgotResult → Bool
  | .response _ => true
  | .emptyArray => false

/-- The `forgotPassword` mutation: validate the email exists (on failure
return the errors); generate a token (passed in as `token`, the resolver
calls `v4()`); store `__FORGET_PASSWORD_PREFIX__ ++ token ↦ email` in
Redis passing the literal `1000 * 60 * 15` as the EX (seconds) argument;
send the reset email; return the empty array. -/
def forgotPassword (token email : String) (db : DB) (cache : TokenCache)
    (now : Nat) : ForgotResult × TokenCache × List Effect :=
  let errors := validateEmailExists email db
  if errors.length > 0 then
    (.response { errors := some errors }, cache, [])
  else
    let key := forgetPasswordNamespace ++ token
    let cache2 := cache.set key email (1000 * 60 * 15) now
    let resetPasswordHTML :=
      "<a href=\"http://localhost:3000/change-password/" ++ token
        ++ "\">Reset Password</a>"
    (.emptyArray, cache2,
      [.cacheSet key email (1000 * 60 * 15), .emailSend email resetPasswordHTML])

/-- The `resetPassword` mutation: trim both password fields; accumulate
the errors of `validateNewPasswordsMatch` and `validatePasswordStrength`;
on any error return them without touching cache or store; look the token
up in Redis; if absent return the generic `Token expired` error; otherwise
hash the new password and update the record keyed by the cached email,
converting a store failure into the `This account does not exist anymore`
error (this is the one resolver call wrapped in a try/catch). -/
def resetPassword (hashFn : String → String)
    (newPassword newPasswordConfirm token : String)
    (db : DB) (cache : TokenCache) (now : Nat) :
    UserResponse × DB × List Effect :=
  let np := jsTrim newPassword
  let npc := jsTrim newPasswordConfirm
  let errors := validateNewPasswordsMatch np npc ++ validatePasswordStrength np
  if errors.length > 0 then
    ({ errors := some errors }, db, [])
  else
    let key := forgetPasswordNamespace ++ token
    match cache.get key now with
    | none =>
        ({ errors := some [⟨"token", "Token expired"⟩] }, db, [.cacheGet key])
    | some userEmail =>
        let hashedPassword := hashFn np
        match db.updateByEmail userEmail hashedPassword with
        | .ok (user, db2) =>
            ({ user := some user }, db2,
              [.cacheGet key, .hashOp np, .updateOp userEmail])
        | .error _ =>
            ({ errors := some [⟨"token", "This account does not exist anymore"⟩] },
              db, [.cacheGet key, .hashOp np, .updateOp userEmail])

/-! Concrete fixtures used to evaluate the embedding. -/

/-- A concrete stand-in for the argon2 hash (the real hash is an external
collaborator passed as a parameter). -/
def hashEx : String → String := fun p => "H:" ++ p

/-- The verification routine matching `hashEx`. -/
def verifyEx : String → String → Bool := fun h p => h == "H:" ++ p

/-- A store holding a single user, alice. -/
def dbAlice : DB := ⟨[⟨1, "alice", "alice@example.com", "H:alicepassword"⟩], 2⟩

/-- The empty store. -/
def dbEmpty : DB := ⟨[], 1⟩

/-! Helper lemmas about the validators and the store operations. -/

/-- A vanishing `validateNewEmail` means no stored user has that email. -/
theorem validateNewEmail_eq_nil {email : String} {db : DB}
    (h : validateNewEmail email db = []) :
    db.users.any (fun u => u.email == email) = false := by
  by_contra hc
  simp only [Bool.not_eq_false] at hc
  simp [validateNewEmail, hc] at h

/-- A vanishing `validateNewUsername` means no stored user has that
username. -/
theorem validateNewUsername_eq_nil {username : String} {db : DB}
    (h : validateNewUsername username db = []) :
    db.users.any (fun u => u.username == username) = false := by
  by_contra hc
  simp only [Bool.not_eq_false] at hc
  simp [validateNewUsername, hc] at h

/-- When neither the email nor the username is taken, `create` succeeds and
appends the record under the next autoincrement id. -/
theorem create_ok (db : DB) (email username hashedPassword : String)
    (he : db.users.any (fun u => u.email == email) = false)
    (hu : db.users.any (fun u => u.username == username) = false) :
    db.create email username hashedPassword =
      .ok (⟨db.nextId, username, email, hashedPassword⟩,
        ⟨db.users ++ [⟨db.nextId, username, email, hashedPassword⟩], db.nextId + 1⟩) := by
  have hcond : db.users.any (fun u => u.username == username || u.email == email) = false := by
    simp only [List.any_eq_false] at he hu ⊢
    intro u hmem
    simp [he u hmem, hu u hmem]
  simp [DB.create, hcond]

/-! Claim theorems. -/

/-- C1: the claim says the reset token is stored with a TTL of 15 minutes
(900 seconds), after which `get` returns absent.  The code instead passes
the literal `1000 * 60 * 15 = 900000` to the EX (seconds) argument of the
Redis `set`, against its own comment "expires in 15 minutes": on an
existing email the recorded cache write carries TTL 900000, the token is
still retrievable 901 and even 899999 seconds after issuance, and only
becomes absent at 900000 seconds (about 10.4 days). -/
theorem forgotPassword_ttl_bug :
    (forgotPassword "tokenA" "alice@example.com" dbAlice ⟨[]⟩ 0).2.2 =
      [Effect.cacheSet (forgetPasswordNamespace ++ "tokenA") "alice@example.com" 900000,
       Effect.emailSend "alice@example.com"
         "<a href=\"http://localhost:3000/change-password/tokenA\">Reset Password</a>"] ∧
    (forgotPassword "tokenA" "alice@example.com" dbAlice ⟨[]⟩ 0).2.1.get
      (forgetPasswordNamespace ++ "tokenA") 901 = some "alice@example.com" ∧
    (forgotPassword "tokenA" "alice@example.com" dbAlice ⟨[]⟩ 0).2.1.get
      (forgetPasswordNamespace ++ "tokenA") 899999 = some "alice@example.com" ∧
    (forgotPassword "tokenA" "alice@example.com" dbAlice ⟨[]⟩ 0).2.1.get
      (forgetPasswordNamespace ++ "tokenA") 900000 = none := by
  decide

/-- C2 counterexample: with an empty store at validation time but a store
already holding bob when `create` runs (a concurrent duplicate),
`register` returns the raw store fault `Except.error` instead of a
field-error `UserResponse`: the storage failure is not caught. -/
theorem register_raw_fault_cx :
    register hashEx ⟨"bob@example.com", "bob", "longpassword1"⟩ dbEmpty
      ⟨[⟨1, "bob", "bob@example.com", "H:x"⟩], 2⟩ ⟨none⟩ =
      .error "Unique constraint failed" := by
  decide

/-- C2 amended: when pre-validation passes but the store `create` call
fails, `register` propagates the storage failure as a raw fault to the
caller (the call is not wrapped in a try/catch); it does not convert it
into a field-error response. -/
theorem register_propagates_store_failure (hashFn : String → String)
    (options : RegisterInput) (dbAtCheck dbAtCreate : DB) (sess : Session)
    (e : String)
    (hval : validateNewEmail (jsTrim options.email) dbAtCheck
        ++ validateNewUsername (jsTrim options.username) dbAtCheck
        ++ validatePasswordStrength (jsTrim options.password) = [])
    (hfail : dbAtCreate.create (jsTrim options.email) (jsTrim options.username)
        (hashFn (jsTrim options.password)) = .error e) :
    register hashFn options dbAtCheck dbAtCreate sess = .error e := by
  simp [register, hval, hfail]

/-- A store already holding dana, used as the create-time snapshot of the
concurrent-duplicate scenario. -/
def dbDana : DB := ⟨[⟨5, "dana", "dana@example.com", "H:y"⟩], 6⟩

/-- Witness for C2: the amended theorem applied at a concrete input. -/
theorem register_propagates_store_failure_witness :
    register hashEx ⟨"dana@example.com", "dana", "danapassword"⟩ dbEmpty dbDana ⟨none⟩ =
      .error "Unique constraint failed" :=
  register_propagates_store_failure hashEx
    ⟨"dana@example.com", "dana", "danapassword"⟩ dbEmpty dbDana ⟨none⟩
    "Unique constraint failed" (by decide) (by decide)

/-- C3 counterexample: on a fully valid input `register` does hash, create
and bind the session, but the `UserResponse` it returns carries the created
record with its password field set to the hash of the password — the
returned User is NOT free of the password hash (the resolver returns the
full store record; any field filtering happens outside this code). -/
theorem register_returns_hash_cx :
    register hashEx ⟨"carol@example.com", "carol", "supersecret1"⟩ dbEmpty dbEmpty ⟨none⟩ =
      .ok ({ user := some ⟨1, "carol", "carol@example.com", "H:supersecret1"⟩ },
        ⟨[⟨1, "carol", "carol@example.com", "H:supersecret1"⟩], 2⟩, ⟨some 1⟩,
        [.hashOp "supersecret1", .createOp, .sessionSet 1]) ∧
    hashEx "supersecret1" = "H:supersecret1" := by
  decide

/-- C3 amended: for every register input passing all validators, `register`
hashes the trimmed password, creates the User record under the next
autoincrement id, binds the session to the new id, and returns the created
User record as stored — including the hashed password field (it never
contains the plaintext password; stripping the hash is not done by this
code). -/
theorem register_success (hashFn : String → String) (options : RegisterInput)
    (db : DB) (sess : Session)
    (hval : validateNewEmail (jsTrim options.email) db
        ++ validateNewUsername (jsTrim options.username) db
        ++ validatePasswordStrength (jsTrim options.password) = []) :
    register hashFn options db db sess =
      .ok ({ user := some ⟨db.nextId, jsTrim options.username, jsTrim options.email,
              hashFn (jsTrim options.password)⟩ },
        ⟨db.users ++ [⟨db.nextId, jsTrim options.username, jsTrim options.email,
              hashFn (jsTrim options.password)⟩], db.nextId + 1⟩,
        ⟨some db.nextId⟩,
        [.hashOp (jsTrim options.password), .createOp, .sessionSet db.nextId]) := by
  obtain ⟨hrest, hps⟩ := List.append_eq_nil.mp hval
  obtain ⟨he, hu⟩ := List.append_eq_nil.mp hrest
  have hcreate := create_ok db (jsTrim options.email) (jsTrim options.username)
    (hashFn (jsTrim options.password))
    (validateNewEmail_eq_nil he) (validateNewUsername_eq_nil hu)
  simp [register, he, hu, hps, hcreate]

/-- Witness for C3: the amended theorem applied at a concrete input. -/
theorem register_success_witness :
    register hashEx ⟨"erin@example.com", "erin", "erinpassword"⟩ dbAlice dbAlice ⟨none⟩ =
      .ok ({ user := some ⟨2, "erin", "erin@example.com", "H:erinpassword"⟩ },
        ⟨[⟨1, "alice", "alice@example.com", "H:alicepassword"⟩,
          ⟨2, "erin", "erin@example.com", "H:erinpassword"⟩], 3⟩,
        ⟨some 2⟩,
        [.hashOp "erinpassword", .createOp, .sessionSet 2]) :=
  register_success hashEx ⟨"erin@example.com", "erin", "erinpassword"⟩ dbAlice ⟨none⟩
    (by decide)

/-- C4: for every register input on which a validator fails, `register`
returns exactly the accumulated FieldErrors of the validators run on the
trimmed inputs (email existence, then username existence, then password
strength), creates no user record (the store comes back unchanged),
computes no hash and performs no session write (the effect trace is
empty), and leaves the session as it was. -/
theorem register_validation_failure (hashFn : String → String)
    (options : RegisterInput) (db : DB) (sess : Session)
    (hval : validateNewEmail (jsTrim options.email) db
        ++ validateNewUsername (jsTrim options.username) db
        ++ validatePasswordStrength (jsTrim options.password) ≠ []) :
    register hashFn options db db sess =
      .ok ({ errors := some (validateNewEmail (jsTrim options.email) db
          ++ validateNewUsername (jsTrim options.username) db
          ++ validatePasswordStrength (jsTrim options.password)) },
        db, sess, []) := by
  simp only [register]
  rw [if_pos (List.length_pos.mpr hval)]

/-- Witness for C4: registering an already-taken username with a weak
password returns the two FieldErrors and changes nothing. -/
theorem register_validation_failure_witness :
    register hashEx ⟨"fresh@example.com", "alice", "short"⟩ dbAlice dbAlice ⟨some 7⟩ =
      .ok ({ errors := some [⟨"username", "A user with that username already exists"⟩,
           ⟨"password", "Password must be at least 8 characters"⟩] },
        dbAlice, ⟨some 7⟩, []) :=
  register_validation_failure hashEx ⟨"fresh@example.com", "alice", "short"⟩
    dbAlice ⟨some 7⟩ (by decide)

/-- C5: when no stored user matches the credential (by username or email),
`login` returns exactly one FieldError on the `credential` field; when a
user matches but the password fails verification against the stored hash,
it returns exactly one FieldError on the `password` field; in both cases
the session comes back unchanged and no effect is performed. -/
theorem login_failure_cases (verify : String → String → Bool)
    (options : LoginInput) (db : DB) (sess : Session) :
    (db.users.find?
        (fun u => u.username == options.credential || u.email == options.credential) = none →
      login verify options db sess =
        ({ errors := some [⟨"credential",
            "Could not find a user with the provided credential"⟩] }, sess, []))
    ∧ (∀ user : User,
        db.users.find?
          (fun u => u.username == options.credential || u.email == options.credential)
            = some user →
        verify user.password options.password = false →
        login verify options db sess =
          ({ errors := some [⟨"password", "Incorrect password"⟩] }, sess, [])) := by
  constructor
  · intro hnone
    simp [login, hnone]
  · intro user hfind hver
    simp [login, hfind, validateCorrectPassword, hver]

/-- Witness for C5: an unknown credential, and alice with a wrong
password, each produce the single expected FieldError and leave the
session alone. -/
theorem login_failure_cases_witness :
    login verifyEx ⟨"nobody", "whatever"⟩ dbAlice ⟨some 3⟩ =
      ({ errors := some [⟨"credential",
          "Could not find a user with the provided credential"⟩] }, ⟨some 3⟩, []) ∧
    login verifyEx ⟨"alice", "wrongpassword"⟩ dbAlice ⟨some 3⟩ =
      ({ errors := some [⟨"password", "Incorrect password"⟩] }, ⟨some 3⟩, []) :=
  ⟨(login_failure_cases verifyEx ⟨"nobody", "whatever"⟩ dbAlice ⟨some 3⟩).1 (by decide),
   (login_failure_cases verifyEx ⟨"alice", "wrongpassword"⟩ dbAlice ⟨some 3⟩).2
     ⟨1, "alice", "alice@example.com", "H:alicepassword"⟩ (by decide) (by decide)⟩

/-- C6: when the trimmed password fields differ or the trimmed new
password is too weak, `resetPassword` returns exactly the accumulated
FieldErrors of the two validators and performs no effect at all: the
effect trace is empty (no cache lookup, no hash, no update) and the store
comes back unchanged (the cache is never written by `resetPassword` in
any case). -/
theorem resetPassword_validation_failure (hashFn : String → String)
    (newPassword newPasswordConfirm token : String)
    (db : DB) (cache : TokenCache) (now : Nat)
    (hval : validateNewPasswordsMatch (jsTrim newPassword) (jsTrim newPasswordConfirm)
        ++ validatePasswordStrength (jsTrim newPassword) ≠ []) :
    resetPassword hashFn newPassword newPasswordConfirm token db cache now =
      ({ errors := some (validateNewPasswordsMatch (jsTrim newPassword)
          (jsTrim newPasswordConfirm)
          ++ validatePasswordStrength (jsTrim newPassword)) }, db, []) := by
  simp only [resetPassword]
  rw [if_pos (List.length_pos.mpr hval)]

/-- Witness for C6: mismatched confirmations produce the
`newPasswordConfirm` error and nothing else happens. -/
theorem resetPassword_validation_failure_witness :
    resetPassword hashEx "newsecret11" "newsecret12" "tokenB" dbAlice ⟨[]⟩ 4 =
      ({ errors := some [⟨"newPasswordConfirm", "Passwords do not match"⟩] },
        dbAlice, []) :=
  resetPassword_validation_failure hashEx "newsecret11" "newsecret12" "tokenB"
    dbAlice ⟨[]⟩ 4 (by decide)

/-- C7: when the password fields validate but the token is absent from the
cache — the hypothesis covers both an expired entry and a token never
issued, and the result depends on nothing else — `resetPassword` returns
the single FieldError `token: Token expired`, the store comes back
unchanged, and the only effect is the cache lookup itself. -/
theorem resetPassword_token_absent (hashFn : String → String)
    (newPassword newPasswordConfirm token : String)
    (db : DB) (cache : TokenCache) (now : Nat)
    (hval : validateNewPasswordsMatch (jsTrim newPassword) (jsTrim newPasswordConfirm)
        ++ validatePasswordStrength (jsTrim newPassword) = [])
    (habsent : cache.get (forgetPasswordNamespace ++ token) now = none) :
    resetPassword hashFn newPassword newPasswordConfirm token db cache now =
      ({ errors := some [⟨"token", "Token expired"⟩] }, db,
        [.cacheGet (forgetPasswordNamespace ++ token)]) := by
  simp [resetPassword, hval, habsent]

/-- Witness for C7: an expired entry (set at time 0 with a 10-second TTL,
looked up at time 10) and a never-issued token give the identical
`Token expired` response. -/
theorem resetPassword_token_absent_witness :
    resetPassword hashEx "newsecret11" "newsecret11" "tokenC" dbAlice
      ⟨[(forgetPasswordNamespace ++ "tokenC", "alice@example.com", 10)]⟩ 10 =
      ({ errors := some [⟨"token", "Token expired"⟩] }, dbAlice,
        [.cacheGet (forgetPasswordNamespace ++ "tokenC")]) ∧
    resetPassword hashEx "newsecret11" "newsecret11" "neverIssued" dbAlice ⟨[]⟩ 10 =
      ({ errors := some [⟨"token", "Token expired"⟩] }, dbAlice,
        [.cacheGet (forgetPasswordNamespace ++ "neverIssued")]) :=
  ⟨resetPassword_token_absent hashEx "newsecret11" "newsecret11" "tokenC" dbAlice
      ⟨[(forgetPasswordNamespace ++ "tokenC", "alice@example.com", 10)]⟩ 10
      (by decide) (by decide),
   resetPassword_token_absent hashEx "newsecret11" "newsecret11" "neverIssued" dbAlice
      ⟨[]⟩ 10 (by decide) (by decide)⟩

/-- C8 counterexample: on an existing email `forgotPassword` returns the
empty array `[]` — `ForgotResult.emptyArray` —, a value that is not of the
declared `UserResponse` response shape (the method only reaches that shape
through the schema layer's coercion of the array to an all-null object). -/
theorem forgotPassword_not_userResponse_cx :
    (forgotPassword "tokenD" "alice@example.com" dbAlice ⟨[]⟩ 0).1 =
      ForgotResult.emptyArray ∧
    ForgotResult.isUserResponse
      (forgotPassword "tokenD" "alice@example.com" dbAlice ⟨[]⟩ 0).1 = false := by
  decide

/-- C8 amended: for every email that exists in the user store,
`forgotPassword` returns the empty array — an empty success indicator
carrying no User — which is however not itself a value of the declared
`UserResponse` shape; alongside it stores the token mapping and sends the
reset email. -/
theorem forgotPassword_success_empty (token email : String) (db : DB)
    (cache : TokenCache) (now : Nat)
    (hexists : validateEmailExists email db = []) :
    forgotPassword token email db cache now =
      (.emptyArray,
        cache.set (forgetPasswordNamespace ++ token) email (1000 * 60 * 15) now,
        [.cacheSet (forgetPasswordNamespace ++ token) email (1000 * 60 * 15),
         .emailSend email ("<a href=\"http://localhost:3000/change-password/"
           ++ token ++ "\">Reset Password</a>")]) := by
  simp [forgotPassword, hexists]

/-- Witness for C8: the amended theorem applied at a concrete input. -/
theorem forgotPassword_success_empty_witness :
    forgotPassword "tokenE" "alice@example.com" dbAlice ⟨[]⟩ 3 =
      (.emptyArray,
        TokenCache.set ⟨[]⟩ (forgetPasswordNamespace ++ "tokenE")
          "alice@example.com" (1000 * 60 * 15) 3,
        [.cacheSet (forgetPasswordNamespace ++ "tokenE") "alice@example.com"
            (1000 * 60 * 15),
         .emailSend "alice@example.com"
           ("<a href=\"http://localhost:3000/change-password/"
             ++ "tokenE" ++ "\">Reset Password</a>")]) :=
  forgotPassword_success_empty "tokenE" "alice@example.com" dbAlice ⟨[]⟩ 3 (by decide)

/-- C9: `logout` asks the session store to destroy the session and
resolves in both branches of the callback: when the destroy fails it
returns `false` without touching the cookie (nothing is thrown — the
embedding is a total function), and when it succeeds it clears the
session cookie and returns `true`. -/
theorem logout_result (res : Res) :
    logout false res = (false, res) ∧ logout true res = (true, ⟨true⟩) :=
  ⟨rfl, rfl⟩

/-- For a list of users with pairwise distinct ids, `find?` on the id of a
member returns exactly that member. -/
theorem find_by_id_of_mem (l : List User) (u : User)
    (hmem : u ∈ l) (hnodup : (l.map User.id).Nodup) :
    l.find? (fun v => v.id == u.id) = some u := by
  induction l with
  | nil => cases hmem
  | cons a tl ih =>
      rw [List.map_cons, List.nodup_cons] at hnodup
      rcases List.mem_cons.mp hmem with heq | htl
      · subst heq
        exact List.find?_cons_of_pos _ (by simp)
      · have hne : a.id ≠ u.id := by
          intro hid
          exact hnodup.1 (hid ▸ List.mem_map_of_mem User.id htl)
        rw [List.find?_cons_of_neg _ (by simp [hne])]
        exact ih htl hnodup.2

/-- C10: for every id carried by a record of the store (ids being unique),
the public `user` query returns that user's full stored record — the exact
`User` value, hashed password field included — and the function receives
no session at all, so no authentication check is involved. -/
theorem userQuery_full_record (db : DB) (u : User)
    (hmem : u ∈ db.users) (hnodup : (db.users.map User.id).Nodup) :
    userQuery u.id db = some u :=
  find_by_id_of_mem db.users u hmem hnodup

/-- Witness for C10: querying alice's id returns her full record, hash
included. -/
theorem userQuery_full_record_witness :
    userQuery 1 dbAlice = some ⟨1, "alice", "alice@example.com", "H:alicepassword"⟩ :=
  userQuery_full_record dbAlice ⟨1, "alice", "alice@example.com", "H:alicepassword"⟩
    (by decide) (by decide)

end RedditClone
